import Mathlib

/-
Verification of the query-understanding and retrieval-orchestration pipeline
of the rag-on-postgres repository, shallowly embedded from
src/fastapi_app/query_rewriter.py and src/fastapi_app/rag_simple.py.
External collaborators (PostgreSQL searcher, embedding client, chat client,
token helper) are modelled as pure oracle functions; every call the pipeline
makes to one of them is recorded in an explicit call trace.
-/

namespace RagOnPostgres

/-- JSON values, used to model the payload that json.loads produces from the
argument text of a tool call. JSON numbers are modelled as integers; no
property checked here depends on non-integral numerics. -/
inductive JVal where
  | jnull
  | jbool (b : Bool)
  | jnum (n : Int)
  | jstr (s : String)
  | jarr (elems : List JVal)
  | jobj (fields : List (String × JVal))

/-- Python exceptions that the embedded code can raise. -/
inductive PyErr where
  | indexError
  | jsonDecodeError (msg : String)
  | keyError (k : String)
  | typeError
  | attributeError
  deriving DecidableEq

/-- Models openai.types.chat tool function payload: the function name and the
result of json.loads on its raw argument text. The JSON parse itself is the
standard library and is modelled as already performed, with Except.error for
text that is not valid JSON. -/
structure ToolFunction where
  name : String
  arguments : Except String JVal

/-- One entry of message.tool_calls. -/
structure ToolCall where
  type : String
  function : ToolFunction

/-- The message of one completion choice, as read by extract_search_arguments. -/
structure RespMessage where
  content : Option String
  tool_calls : Option (List ToolCall)

/-- One choice of a chat completion. -/
structure Choice where
  message : RespMessage

/-- A chat completion as consumed by extract_search_arguments. -/
structure ChatCompletion where
  choices : List Choice

/-- A structured filter as built by extract_search_arguments: a dict with
column, comparison_operator and value entries. Operator and value are carried
verbatim from the JSON payload. -/
structure Filter where
  column : String
  comparison_operator : JVal
  value : JVal

/-- Python dict.get on a JSON object: first binding of the key, if any. -/
def jGet (fields : List (String × JVal)) (k : String) : Option JVal :=
  (fields.find? (fun p => p.1 == k)).map (fun p => p.2)

/-- Python dict indexing on a JSON object: raises KeyError when absent. -/
def jIndex (fields : List (String × JVal)) (k : String) : Except PyErr JVal :=
  match jGet fields k with
  | some v => Except.ok v
  | none => Except.error (PyErr.keyError k)

/-- The price_filter branch of extract_search_arguments: when the key is
present, read comparison_operator and value by indexing (KeyError when a field
is missing) and build the price filter; when absent, contribute nothing. -/
def parsePriceFilter (arg : List (String × JVal)) : Except PyErr (List Filter) :=
  match jGet arg "price_filter" with
  | none => Except.ok []
  | some (JVal.jobj pf) => do
      let op ← jIndex pf "comparison_operator"
      let v ← jIndex pf "value"
      Except.ok [{ column := "price", comparison_operator := op, value := v }]
  | some _ => Except.error PyErr.typeError

/-- The brand_filter branch of extract_search_arguments, same shape as the
price branch but with column brand. -/
def parseBrandFilter (arg : List (String × JVal)) : Except PyErr (List Filter) :=
  match jGet arg "brand_filter" with
  | none => Except.ok []
  | some (JVal.jobj bf) => do
      let op ← jIndex bf "comparison_operator"
      let v ← jIndex bf "value"
      Except.ok [{ column := "brand", comparison_operator := op, value := v }]
  | some _ => Except.error PyErr.typeError

/-- The body of the for-loop of extract_search_arguments for one tool call:
skip non-function calls, and for a search_database call parse the JSON
arguments (parse failure raises), overwrite search_query with the payload
search_query entry, and append the price filter then the brand filter to the
accumulated list. -/
def extractFromTool (st : Option JVal × List Filter) (tool : ToolCall) :
    Except PyErr (Option JVal × List Filter) :=
  if tool.type ≠ "function" then Except.ok st
  else if tool.function.name = "search_database" then
    match tool.function.arguments with
    | Except.error msg => Except.error (PyErr.jsonDecodeError msg)
    | Except.ok (JVal.jobj arg) => do
        let pf ← parsePriceFilter arg
        let bf ← parseBrandFilter arg
        Except.ok (jGet arg "search_query", st.2 ++ pf ++ bf)
    | Except.ok _ => Except.error PyErr.attributeError
  else Except.ok st

/-- The for-loop over tool_calls: iterate extractFromTool, propagating the
first raised exception. -/
def extractLoop (st : Option JVal × List Filter) :
    List ToolCall → Except PyErr (Option JVal × List Filter)
  | [] => Except.ok st
  | tc :: rest =>
      match extractFromTool st tc with
      | Except.ok st2 => extractLoop st2 rest
      | Except.error e => Except.error e

/-- Python str.strip with no argument: remove leading and trailing whitespace
characters. -/
def pyStrip (s : String) : String :=
  String.mk (((s.toList.dropWhile Char.isWhitespace).reverse.dropWhile
    Char.isWhitespace).reverse)

/-- The elif and else branches of extract_search_arguments: a truthy content
string becomes the stripped search query; None or an empty string leaves the
query None. -/
def contentFallback (content : Option String) : Option JVal × List Filter :=
  match content with
  | some c => if c = "" then (none, []) else (some (JVal.jstr (pyStrip c)), [])
  | none => (none, [])

/-- Embedding of extract_search_arguments from query_rewriter.py: read the
first choice (IndexError when there is none); when tool_calls is truthy run
the loop, otherwise fall back to the plain message content. -/
def extract_search_arguments (chat_completion : ChatCompletion) :
    Except PyErr (Option JVal × List Filter) :=
  match chat_completion.choices.head? with
  | none => Except.error PyErr.indexError
  | some choice =>
      match choice.message.tool_calls with
      | some tools =>
          if tools.isEmpty then Except.ok (contentFallback choice.message.content)
          else extractLoop (none, []) tools
      | none => Except.ok (contentFallback choice.message.content)

/-- A completion whose single choice carries the given content and tool_calls. -/
def mkCompletion (content : Option String) (tool_calls : Option (List ToolCall)) :
    ChatCompletion :=
  { choices := [{ message := { content := content, tool_calls := tool_calls } }] }

/-- A function-kind tool call named search_database with the given parsed
argument payload. -/
def mkSearchCall (args : Except String JVal) : ToolCall :=
  { type := "function", function := { name := "search_database", arguments := args } }

/-- C5: a response whose single tool invocation is a function-kind
search_database call with a payload that sets only search_query yields exactly
that string as the search query and an empty filter list, whatever the message
content is. -/
theorem C5_query_only (s : String) (content : Option String) :
    extract_search_arguments
      (mkCompletion content
        (some [mkSearchCall (Except.ok (JVal.jobj [("search_query", JVal.jstr s)]))]))
      = Except.ok (some (JVal.jstr s), []) := rfl

/-- C6: a search_database payload carrying both a price_filter and a
brand_filter yields exactly two filters, the price filter strictly before the
brand filter, each with the operator and value copied verbatim from the
payload. -/
theorem C6_price_then_brand (s : String) (op1 v1 op2 v2 : JVal) :
    extract_search_arguments
      (mkCompletion none
        (some [mkSearchCall (Except.ok (JVal.jobj
          [("search_query", JVal.jstr s),
           ("price_filter", JVal.jobj [("comparison_operator", op1), ("value", v1)]),
           ("brand_filter", JVal.jobj [("comparison_operator", op2), ("value", v2)])]))]))
      = Except.ok (some (JVal.jstr s),
          [{ column := "price", comparison_operator := op1, value := v1 },
           { column := "brand", comparison_operator := op2, value := v2 }]) := rfl

/-- C7: with no tool invocation (tool_calls absent or the empty list), a
truthy message content yields that content stripped of leading and trailing
whitespace as the search query with no filters, and a message with neither tool
calls nor content yields a None query with no filters. -/
theorem C7_plain_fallback (tc : Option (List ToolCall))
    (htc : tc = none ∨ tc = some []) :
    (∀ c : String, c ≠ "" →
        extract_search_arguments (mkCompletion (some c) tc)
          = Except.ok (some (JVal.jstr (pyStrip c)), [])) ∧
    extract_search_arguments (mkCompletion none tc) = Except.ok (none, []) := by
  rcases htc with h | h <;> subst h <;>
    exact ⟨fun c hc => by
      simp [extract_search_arguments, mkCompletion, contentFallback, hc], rfl⟩

/-- C7 witness: the fallback evaluated on a padded content string and on an
absent content. -/
theorem C7_witness :
    pyStrip " red shoes " = "red shoes" ∧
    extract_search_arguments (mkCompletion (some " red shoes ") none)
      = Except.ok (some (JVal.jstr "red shoes"), []) ∧
    extract_search_arguments (mkCompletion none none) = Except.ok (none, []) :=
  ⟨by decide,
   (C7_plain_fallback none (Or.inl rfl)).1 " red shoes " (by decide),
   (C7_plain_fallback none (Or.inl rfl)).2⟩

/-- C9: a search_database invocation with a malformed argument payload raises:
unparseable JSON raises the JSON decode error, and a present price_filter or
brand_filter object that is missing its comparison_operator or value entry
raises a KeyError naming the missing key; no default query is returned and the
invocation is not skipped. -/
theorem C9_malformed_raises (content : Option String) (e : String) (op v : JVal) :
    extract_search_arguments (mkCompletion content (some [mkSearchCall (Except.error e)]))
      = Except.error (PyErr.jsonDecodeError e) ∧
    extract_search_arguments (mkCompletion content (some [mkSearchCall (Except.ok
        (JVal.jobj [("search_query", JVal.jstr "shoes"),
                    ("price_filter", JVal.jobj [("value", v)])]))]))
      = Except.error (PyErr.keyError "comparison_operator") ∧
    extract_search_arguments (mkCompletion content (some [mkSearchCall (Except.ok
        (JVal.jobj [("search_query", JVal.jstr "shoes"),
                    ("price_filter", JVal.jobj [("comparison_operator", op)])]))]))
      = Except.error (PyErr.keyError "value") ∧
    extract_search_arguments (mkCompletion content (some [mkSearchCall (Except.ok
        (JVal.jobj [("search_query", JVal.jstr "shoes"),
                    ("brand_filter", JVal.jobj [("value", v)])]))]))
      = Except.error (PyErr.keyError "comparison_operator") ∧
    extract_search_arguments (mkCompletion content (some [mkSearchCall (Except.ok
        (JVal.jobj [("search_query", JVal.jstr "shoes"),
                    ("brand_filter", JVal.jobj [("comparison_operator", op)])]))]))
      = Except.error (PyErr.keyError "value") :=
  ⟨rfl, rfl, rfl, rfl, rfl⟩

/-- Helper for C10: the extraction loop leaves its state untouched on a list
of tool calls in which no entry is a function-kind search_database call. -/
theorem extractLoop_nonmatching (tools : List ToolCall) :
    ∀ st : Option JVal × List Filter,
      (∀ tc ∈ tools, tc.type ≠ "function" ∨ tc.function.name ≠ "search_database") →
      extractLoop st tools = Except.ok st := by
  induction tools with
  | nil => intro st _; rfl
  | cons tc rest ih =>
      intro st h
      have htc := h tc (List.mem_cons_self tc rest)
      have hstep : extractFromTool st tc = Except.ok st := by
        unfold extractFromTool
        rcases htc with h1 | h2
        · rw [if_pos h1]
        · by_cases hty : tc.type ≠ "function"
          · rw [if_pos hty]
          · rw [if_neg hty, if_neg h2]
      simpa [extractLoop, hstep] using ih st (fun x hx => h x (List.mem_cons_of_mem tc hx))

/-- C10: when tool_calls is non-empty but contains no function-kind
search_database invocation, extraction yields a None query and no filters,
even when the message content is a non-empty string — the plain-text fallback
is never reached. -/
theorem C10_non_matching_tools (tools : List ToolCall) (hne : tools ≠ [])
    (hnm : ∀ tc ∈ tools, tc.type ≠ "function" ∨ tc.function.name ≠ "search_database")
    (content : Option String) :
    extract_search_arguments (mkCompletion content (some tools))
      = Except.ok (none, []) := by
  have hempty : tools.isEmpty = false := by
    cases tools with
    | nil => exact absurd rfl hne
    | cons a l => rfl
  simp [extract_search_arguments, mkCompletion, hempty,
        extractLoop_nonmatching tools (none, []) hnm]

/-- C10 witness: one non-function tool call plus one function call with a
different name, alongside non-empty content, still yields a None query. -/
theorem C10_witness :
    extract_search_arguments (mkCompletion (some "hello")
        (some [{ type := "retrieval", function := { name := "search_database", arguments := Except.ok JVal.jnull } },
               { type := "function", function := { name := "lookup_weather", arguments := Except.ok JVal.jnull } }]))
      = Except.ok (none, []) :=
  C10_non_matching_tools _ (by simp)
    (by
      intro tc htc
      simp only [List.mem_cons, List.not_mem_nil, or_false] at htc
      rcases htc with rfl | rfl
      · exact Or.inl (by decide)
      · exact Or.inr (by decide))
    (some "hello")

/-- An incoming conversation message, an entry of the messages list that run
receives: a dict with role and content. -/
structure InMessage where
  role : String
  content : String
  deriving DecidableEq

/-- A prompt message as produced by the external build_messages helper and
sent to the chat completion call. -/
structure PromptMsg where
  role : String
  content : String
  deriving DecidableEq

/-- Python str of a prompt-message dict, as rendered into the third thought
step. Quote escaping inside the values is not modelled; no property checked
here inspects the rendered text. -/
def PromptMsg.toPyStr (m : PromptMsg) : String :=
  "\x7b\x27role\x27: \x27" ++ m.role ++ "\x27, \x27content\x27: \x27"
    ++ m.content ++ "\x27\x7d"

/-- Modelled from the spec: RetrievedItem (the Item model lives in
postgres_models.py, outside src): an opaque record with a stable id, a
renderable textual representation to_str_for_rag used for grounding, and a
plain-record form to_dict used for trace display. -/
structure RetrievedItem where
  id : Int
  rag_text : String
  record : List (String × JVal)

/-- The description payload of a thought step: either the resolved query text,
a list of plain records, or a list of rendered prompt messages. -/
inductive Desc where
  | text (s : Option String)
  | records (rs : List (List (String × JVal)))
  | messages (ms : List String)

/-- A value stored in the props mapping of a thought step. -/
inductive PropVal where
  | int (n : Int)
  | bool (b : Bool)
  | str (s : String)

/-- Modelled from the spec: ThoughtStep (api_models.py is outside src): a
record of title, description and a props mapping; props defaults to the empty
mapping when the constructor call supplies none. -/
structure ThoughtStep where
  title : String
  description : Desc
  props : List (String × PropVal) := []

/-- The context object that run attaches to the first choice of the response. -/
structure Context where
  data_points_text : List String
  thoughts : List ThoughtStep

/-- One choice of the dumped chat response. The payload field stands for every
other key of the dumped choice dict; run only adds the context key. -/
structure RespChoice where
  payload : String
  context : Option Context

/-- The dumped chat-completion response: the choices list plus its remaining
keys, opaque here. -/
structure ChatResp where
  payload : String
  choices : List RespChoice

/-- The overrides dict as read by run through .get: absent keys are None.
A retrieval_mode of none models both an absent key and an explicit null, which
dict.get does not distinguish. Temperatures are exact rationals standing in
for the floats of the source. -/
structure Overrides where
  retrieval_mode : Option String := none
  top : Option Int := none
  temperature : Option ℚ := none
  prompt_template : Option String := none

/-- The external collaborators of run, modelled as pure oracle functions:
compute_text_embedding over (text, model, deployment, dimensions) with
embedding floats opaque and modelled as integers; PostgresSearcher.search over
(query_text, query_vector, top); build_messages over (model, system_prompt,
new_user_message, past_messages, max_tokens); and the chat completions create
call over (model, messages, temperature, max_tokens). -/
structure Env where
  compute_text_embedding : String → String → Option String → Int → List Int
  search : Option String → List Int → Int → List RetrievedItem
  build_messages : String → String → String → List InMessage → Int → List PromptMsg
  complete : String → List PromptMsg → ℚ → Int → ChatResp

/-- The configuration fields of SimpleRAGChat set in its constructor.
chat_token_limit stands for get_token_limit(chat_model, default_to_minimum),
and answer_prompt_template for the prompts/answer.txt text loaded at startup;
both come from outside the pipeline. -/
structure SimpleRAGChat where
  chat_model : String
  chat_deployment : Option String
  embed_model : String
  embed_deployment : Option String
  embed_dimensions : Int
  chat_token_limit : Int
  answer_prompt_template : String

/-- One capability invocation made by run, with the arguments it passed. -/
inductive CapCall where
  | embed (text : String) (model : String) (deployment : Option String) (dimensions : Int)
  | search (query_text : Option String) (vector : List Int) (top : Int)
  | build (model : String) (system_prompt : String) (new_user_message : String)
      (past : List InMessage) (max_tokens : Int)
  | complete (model : String) (messages : List PromptMsg) (temperature : ℚ) (max_tokens : Int)
  deriving DecidableEq

/-- Line 45 of rag_simple.py: membership of overrides.get of retrieval_mode in
the list of text, hybrid and None. -/
def text_search_of (ov : Overrides) : Bool :=
  match ov.retrieval_mode with
  | none => true
  | some m => m == "text" || m == "hybrid"

/-- Line 46 of rag_simple.py: membership of overrides.get of retrieval_mode in
the list of vectors, hybrid and None. -/
def vector_search_of (ov : Overrides) : Bool :=
  match ov.retrieval_mode with
  | none => true
  | some m => m == "vectors" || m == "hybrid"

/-- Line 47 of rag_simple.py: overrides.get of top with default 3. -/
def top_of (ov : Overrides) : Int :=
  ov.top.getD 3

/-- Line 87 of rag_simple.py: overrides.get of temperature with default 0.3. -/
def temperature_of (ov : Overrides) : ℚ :=
  ov.temperature.getD (3 / 10)

/-- Python x or y on an optional string: y when x is None or empty. -/
def pyOrStr (a : Option String) (b : String) : String :=
  match a with
  | some s => if s = "" then b else s
  | none => b

/-- The vector local of run: the computed embedding of the original user query
when vector_search holds, else the empty list. -/
def vector_of (chat : SimpleRAGChat) (env : Env) (ov : Overrides) (q : String) : List Int :=
  if vector_search_of ov then
    env.compute_text_embedding q chat.embed_model chat.embed_deployment chat.embed_dimensions
  else []

/-- The query_text local of run: the original user query when text_search
holds, else None. -/
def query_text_of (ov : Overrides) (q : String) : Option String :=
  if text_search_of ov then some q else none

/-- The results local of run: what searcher.search returns for the resolved
query text, vector and top. -/
def results_of (chat : SimpleRAGChat) (env : Env) (ov : Overrides) (q : String) :
    List RetrievedItem :=
  env.search (query_text_of ov q) (vector_of chat env ov q) (top_of ov)

/-- Line 68 of rag_simple.py: one source block, the item id in square brackets,
a colon with no space after it, the renderable text, and two newlines. -/
def renderSourceBlock (item : RetrievedItem) : String :=
  "[" ++ toString item.id ++ "]:" ++ item.rag_text ++ "\n\n"

/-- Python str.join: the separator inserted between consecutive elements. -/
def pyJoin (sep : String) : List String → String
  | [] => ""
  | [a] => a
  | a :: rest => a ++ sep ++ pyJoin sep rest

/-- The sources_content local of run: the list of rendered source blocks in
the order the retriever returned the items. -/
def sources_content_of (chat : SimpleRAGChat) (env : Env) (ov : Overrides) (q : String) :
    List String :=
  (results_of chat env ov q).map renderSourceBlock

/-- Line 69 of rag_simple.py: the single sources block, the rendered blocks
joined with a newline separator. -/
def sourcesBlockOf (results : List RetrievedItem) : String :=
  pyJoin "\n" (results.map renderSourceBlock)

/-- The system prompt: an override-supplied template when truthy, else the
built-in template. -/
def system_prompt_of (chat : SimpleRAGChat) (ov : Overrides) : String :=
  pyOrStr ov.prompt_template chat.answer_prompt_template

/-- The new user turn handed to build_messages: the original query, the
Sources header, and the joined sources block. -/
def new_user_message_of (chat : SimpleRAGChat) (env : Env) (ov : Overrides) (q : String) :
    String :=
  q ++ "\n\nSources:\n" ++ sourcesBlockOf (results_of chat env ov q)

/-- The messages local rebuilt by build_messages under the token budget of
chat_token_limit minus the reserved 1024 response tokens. -/
def built_of (chat : SimpleRAGChat) (env : Env) (ov : Overrides) (q : String)
    (past : List InMessage) : List PromptMsg :=
  env.build_messages chat.chat_model (system_prompt_of chat ov)
    (new_user_message_of chat env ov q) past (chat.chat_token_limit - 1024)

/-- The model identifier of the completion call: the deployment name when one
is set and truthy, else the bare model name. -/
def model_of (chat : SimpleRAGChat) : String :=
  pyOrStr chat.chat_deployment chat.chat_model

/-- The completion returned by the chat client for the assembled request. -/
def completion_of (chat : SimpleRAGChat) (env : Env) (ov : Overrides) (q : String)
    (past : List InMessage) : ChatResp :=
  env.complete (model_of chat) (built_of chat env ov q past) (temperature_of ov) 1024

/-- The props of the third thought step: the model name, plus the deployment
when chat_deployment is truthy. -/
def model_props_of (chat : SimpleRAGChat) : List (String × PropVal) :=
  match chat.chat_deployment with
  | some d =>
      if d = "" then [("model", PropVal.str chat.chat_model)]
      else [("model", PropVal.str chat.chat_model), ("deployment", PropVal.str d)]
  | none => [("model", PropVal.str chat.chat_model)]

/-- The three thought steps run records, in order: the resolved search query
with top and mode flags, the retrieved items as plain records, and the
assembled prompt with the model identifiers. -/
def thoughts_of (chat : SimpleRAGChat) (env : Env) (ov : Overrides) (q : String)
    (past : List InMessage) : List ThoughtStep :=
  [{ title := "Search query for database",
     description := Desc.text (query_text_of ov q),
     props := [("top", PropVal.int (top_of ov)),
               ("vector_search", PropVal.bool (vector_search_of ov)),
               ("text_search", PropVal.bool (text_search_of ov))] },
   { title := "Search results",
     description := Desc.records ((results_of chat env ov q).map RetrievedItem.record) },
   { title := "Prompt to generate answer",
     description := Desc.messages ((built_of chat env ov q past).map PromptMsg.toPyStr),
     props := model_props_of chat }]

/-- The context object attached to the first response choice. -/
def context_of (chat : SimpleRAGChat) (env : Env) (ov : Overrides) (q : String)
    (past : List InMessage) : Context :=
  { data_points_text := sources_content_of chat env ov q,
    thoughts := thoughts_of chat env ov q past }

/-- The sequence of capability invocations one run performs: the optional
embedding call, then the search, then build_messages, then the completion. -/
def trace_of (chat : SimpleRAGChat) (env : Env) (ov : Overrides) (q : String)
    (past : List InMessage) : List CapCall :=
  (if vector_search_of ov then
      [CapCall.embed q chat.embed_model chat.embed_deployment chat.embed_dimensions]
    else [])
  ++ [CapCall.search (query_text_of ov q) (vector_of chat env ov q) (top_of ov)]
  ++ [CapCall.build chat.chat_model (system_prompt_of chat ov)
        (new_user_message_of chat env ov q) past (chat.chat_token_limit - 1024)]
  ++ [CapCall.complete (model_of chat) (built_of chat env ov q past) (temperature_of ov) 1024]

/-- Embedding of SimpleRAGChat.run from rag_simple.py, paired with the trace
of capability calls it makes. An empty messages list raises IndexError at the
initial messages access with no call made; an empty choices list in the
completion raises IndexError after every call was made; otherwise the dumped
completion is returned with the context attached to its first choice. -/
def SimpleRAGChat.run (chat : SimpleRAGChat) (env : Env) (messages : List InMessage)
    (ov : Overrides) : Except PyErr ChatResp × List CapCall :=
  match messages.getLast? with
  | none => (Except.error PyErr.indexError, [])
  | some lastMsg =>
      match (completion_of chat env ov lastMsg.content messages.dropLast).choices with
      | [] => (Except.error PyErr.indexError,
               trace_of chat env ov lastMsg.content messages.dropLast)
      | c0 :: rest =>
          (Except.ok { completion_of chat env ov lastMsg.content messages.dropLast with
                       choices := { c0 with
                         context := some (context_of chat env ov lastMsg.content
                           messages.dropLast) } :: rest },
           trace_of chat env ov lastMsg.content messages.dropLast)

/-- The trace of a run on a non-empty messages list is the four-stage call
sequence for the last message and the preceding history, whatever the
completion contained. -/
theorem run_trace (chat : SimpleRAGChat) (env : Env) (past : List InMessage)
    (m : InMessage) (ov : Overrides) :
    (chat.run env (past ++ [m]) ov).2 = trace_of chat env ov m.content past := by
  unfold SimpleRAGChat.run
  rw [List.getLast?_concat, List.dropLast_concat]
  cases h : (completion_of chat env ov m.content past).choices <;> simp [h]

/-- Detects an embedding capability call in a trace. -/
def isEmbedCall : CapCall → Bool
  | CapCall.embed _ _ _ _ => true
  | _ => false

/-- Detects a retriever capability call in a trace. -/
def isSearchCall : CapCall → Bool
  | CapCall.search _ _ _ => true
  | _ => false

/-- The embedding and retriever calls of a trace, in order. -/
def retrievalCalls (t : List CapCall) : List CapCall :=
  t.filter (fun c => isEmbedCall c || isSearchCall c)

/-- A first concrete catalog item used as a test fixture. -/
def testItem1 : RetrievedItem :=
  { id := 1, rag_text := "Name:TrailShoe Price:49", record := [("id", JVal.jnum 1)] }

/-- A second concrete catalog item used as a test fixture. -/
def testItem2 : RetrievedItem :=
  { id := 2, rag_text := "Name:RoadBoot Price:79", record := [("id", JVal.jnum 2)] }

/-- The single user turn of the concrete test conversation. -/
def testMsg : InMessage :=
  { role := "user", content := "red shoes" }

/-- A concrete SimpleRAGChat configuration with no deployment names. -/
def testChat : SimpleRAGChat :=
  { chat_model := "gpt", chat_deployment := none, embed_model := "embedder",
    embed_deployment := none, embed_dimensions := 1536, chat_token_limit := 4096,
    answer_prompt_template := "Answer using only the sources below." }

/-- A concrete environment of oracle collaborators for the test runs. -/
def testEnv : Env :=
  { compute_text_embedding := fun text _ _ dims => [Int.ofNat text.length, dims],
    search := fun _ _ _ => [testItem1, testItem2],
    build_messages := fun _ sys num past _ =>
      { role := "system", content := sys }
        :: past.map (fun mm => { role := mm.role, content := mm.content })
        ++ [{ role := "user", content := num }],
    complete := fun _ _ _ _ =>
      { payload := "resp", choices := [{ payload := "choice0", context := none }] } }

/-- Overrides with every key absent. -/
def ovDefaults : Overrides := {}

/-- Overrides selecting text-only retrieval. -/
def ovText : Overrides := { retrieval_mode := some "text" }

/-- Overrides selecting vector-only retrieval. -/
def ovVectors : Overrides := { retrieval_mode := some "vectors" }

/-- Overrides selecting hybrid retrieval explicitly. -/
def ovHybrid : Overrides := { retrieval_mode := some "hybrid" }

/-- Overrides with a retrieval_mode that is none of text, vectors or hybrid,
so that both search flags are false. -/
def ovUnknown : Overrides := { retrieval_mode := some "none" }

/-- Overrides supplying a zero result cap in text mode. -/
def ovTopZero : Overrides := { retrieval_mode := some "text", top := some 0 }

/-- C1 counterexample: with a retrieval_mode recognized by neither flag, the
run still performs a retriever call, with a None query text, an empty vector
and the default top of 3 — it does not skip the retriever. -/
theorem C1_counterexample :
    CapCall.search none [] 3 ∈ (SimpleRAGChat.run testChat testEnv [testMsg] ovUnknown).2 := by
  decide

/-- C1 amended: when both text_search and vector_search are false the run does
not short-circuit; it invokes the retriever exactly once, passing a None query
text, an empty vector and the configured top, and makes no embedding call. -/
theorem C1_retriever_still_invoked (chat : SimpleRAGChat) (env : Env)
    (past : List InMessage) (m : InMessage) (ov : Overrides)
    (hts : text_search_of ov = false) (hvs : vector_search_of ov = false) :
    retrievalCalls (chat.run env (past ++ [m]) ov).2
      = [CapCall.search none [] (top_of ov)] := by
  rw [run_trace]
  simp [retrievalCalls, trace_of, hvs, query_text_of, hts, vector_of,
        isEmbedCall, isSearchCall]

/-- C1 amended, witness: the unknown-mode overrides on the concrete fixtures. -/
theorem C1_retriever_still_invoked_witness :
    retrievalCalls (SimpleRAGChat.run testChat testEnv ([] ++ [testMsg]) ovUnknown).2
      = [CapCall.search none [] 3] :=
  C1_retriever_still_invoked testChat testEnv [] testMsg ovUnknown rfl rfl

/-- C2 counterexample: with overrides top set to zero, the retriever call of
the run carries a top of zero, so the top passed is not always positive. -/
theorem C2_counterexample :
    ¬ (∀ q v t, CapCall.search q v t ∈ (SimpleRAGChat.run testChat testEnv [testMsg] ovTopZero).2
        → 0 < t) := by
  intro h
  have hmem : CapCall.search (some "red shoes") [] 0
      ∈ (SimpleRAGChat.run testChat testEnv [testMsg] ovTopZero).2 := by decide
  exact absurd (h _ _ _ hmem) (by decide)

/-- C2 amended: whatever the overrides hold, the top handed to the retriever
is exactly the overrides top when one is supplied, unvalidated — zero and
negative values pass through as they are — and 3 when none is supplied; that
top is positive if and only if every supplied top value is positive, that is,
exactly when the overrides omit top or supply a positive value. -/
theorem C2_top_passthrough (chat : SimpleRAGChat) (env : Env)
    (past : List InMessage) (m : InMessage) (ov : Overrides) :
    ∀ q v t, CapCall.search q v t ∈ (chat.run env (past ++ [m]) ov).2 →
      t = top_of ov ∧ (0 < t ↔ (∀ t0, ov.top = some t0 → 0 < t0)) := by
  have hpos : 0 < top_of ov ↔ (∀ t0, ov.top = some t0 → 0 < t0) := by
    unfold top_of
    cases ov.top with
    | none => exact ⟨(fun _ t0 h => nomatch h), fun _ => by decide⟩
    | some t0 => exact ⟨fun h t1 ht => Option.some.inj ht ▸ h, fun h => h t0 rfl⟩
  intro q v t hmem
  rw [run_trace] at hmem
  cases hb : vector_search_of ov <;>
    simp [trace_of, hb, List.mem_append] at hmem <;>
    obtain ⟨-, -, ht⟩ := hmem <;>
    subst ht <;>
    exact ⟨rfl, hpos⟩

/-- C2 amended, witness: a supplied top of zero reaches the retriever verbatim
on the concrete run, and zero is not positive, matching the biconditional. -/
theorem C2_top_passthrough_witness :
    (0 : Int) = top_of ovTopZero ∧
      ((0 : Int) < 0 ↔ (∀ t0, ovTopZero.top = some t0 → 0 < t0)) :=
  C2_top_passthrough testChat testEnv [] testMsg ovTopZero
    (some "red shoes") [] 0 (by decide)

/-- C3 counterexample: the rendered block of a concrete item has no space
after the colon, and joining two blocks inserts a newline separator between
them, so the sources block is not the plain concatenation of blocks of the
form with a space after the id. -/
theorem C3_counterexample :
    renderSourceBlock testItem1 ≠ "[1]: Name:TrailShoe Price:49\n\n" ∧
    sourcesBlockOf [testItem1, testItem2]
      ≠ renderSourceBlock testItem1 ++ renderSourceBlock testItem2 := by
  exact ⟨by decide, by decide⟩

/-- C3 amended: each item renders to the block of its id in square brackets, a
colon with no space, its renderable text and two newlines; the sources block
lists the blocks in retriever order with a single newline inserted between
consecutive blocks and nothing else. -/
theorem C3_separator_join (x y : RetrievedItem) (ys : List RetrievedItem) :
    renderSourceBlock x = "[" ++ toString x.id ++ "]:" ++ x.rag_text ++ "\n\n" ∧
    sourcesBlockOf [] = "" ∧
    sourcesBlockOf [x] = renderSourceBlock x ∧
    sourcesBlockOf (x :: y :: ys) = renderSourceBlock x ++ "\n" ++ sourcesBlockOf (y :: ys) :=
  ⟨rfl, rfl, rfl, rfl⟩

/-- C4: in text mode the retrieval calls of a run are exactly one retriever
call with the text query and no vector and there is no embedding call; in
vectors mode they are exactly one embedding call on the last message content
followed by one retriever call carrying the resulting vector and no text
query; in hybrid or absent mode the embedding call happens and the retriever
receives both the text query and the vector. -/
theorem C4_mode_dispatch (chat : SimpleRAGChat) (env : Env) (past : List InMessage)
    (m : InMessage) (ov : Overrides) :
    (ov.retrieval_mode = some "text" →
        retrievalCalls (chat.run env (past ++ [m]) ov).2
          = [CapCall.search (some m.content) [] (top_of ov)]) ∧
    (ov.retrieval_mode = some "vectors" →
        retrievalCalls (chat.run env (past ++ [m]) ov).2
          = [CapCall.embed m.content chat.embed_model chat.embed_deployment chat.embed_dimensions,
             CapCall.search none
               (env.compute_text_embedding m.content chat.embed_model chat.embed_deployment
                 chat.embed_dimensions)
               (top_of ov)]) ∧
    ((ov.retrieval_mode = some "hybrid" ∨ ov.retrieval_mode = none) →
        retrievalCalls (chat.run env (past ++ [m]) ov).2
          = [CapCall.embed m.content chat.embed_model chat.embed_deployment chat.embed_dimensions,
             CapCall.search (some m.content)
               (env.compute_text_embedding m.content chat.embed_model chat.embed_deployment
                 chat.embed_dimensions)
               (top_of ov)]) := by
  refine ⟨fun h => ?_, fun h => ?_, fun h => ?_⟩
  · rw [run_trace]
    simp [retrievalCalls, trace_of, text_search_of, vector_search_of, query_text_of,
          vector_of, isEmbedCall, isSearchCall, h]
  · rw [run_trace]
    simp [retrievalCalls, trace_of, text_search_of, vector_search_of, query_text_of,
          vector_of, isEmbedCall, isSearchCall, h]
  · rw [run_trace]
    rcases h with h | h <;>
      simp [retrievalCalls, trace_of, text_search_of, vector_search_of, query_text_of,
            vector_of, isEmbedCall, isSearchCall, h]

/-- C4 witness: the three modes evaluated on the concrete fixtures. -/
theorem C4_mode_dispatch_witness :
    retrievalCalls (SimpleRAGChat.run testChat testEnv ([] ++ [testMsg]) ovText).2
      = [CapCall.search (some "red shoes") [] 3] ∧
    retrievalCalls (SimpleRAGChat.run testChat testEnv ([] ++ [testMsg]) ovVectors).2
      = [CapCall.embed "red shoes" "embedder" none 1536,
         CapCall.search none
           (testEnv.compute_text_embedding "red shoes" "embedder" none 1536) 3] ∧
    retrievalCalls (SimpleRAGChat.run testChat testEnv ([] ++ [testMsg]) ovHybrid).2
      = [CapCall.embed "red shoes" "embedder" none 1536,
         CapCall.search (some "red shoes")
           (testEnv.compute_text_embedding "red shoes" "embedder" none 1536) 3] :=
  ⟨(C4_mode_dispatch testChat testEnv [] testMsg ovText).1 rfl,
   (C4_mode_dispatch testChat testEnv [] testMsg ovVectors).2.1 rfl,
   (C4_mode_dispatch testChat testEnv [] testMsg ovHybrid).2.2 (Or.inl rfl)⟩

/-- C8: a completed run returns the dumped completion with, attached to its
first choice, a context whose data_points text is the list of rendered source
blocks and whose thoughts are exactly three steps in order: the resolved
query with top and mode metadata, the retrieved items as plain records, and
the assembled prompt messages with the model and, when a deployment is set,
the deployment identifier. -/
theorem C8_response_context (chat : SimpleRAGChat) (env : Env) (past : List InMessage)
    (m : InMessage) (ov : Overrides) (c0 : RespChoice) (rest : List RespChoice)
    (hch : (completion_of chat env ov m.content past).choices = c0 :: rest) :
    (chat.run env (past ++ [m]) ov).1
      = Except.ok { completion_of chat env ov m.content past with
          choices := { c0 with context := some (
            { data_points_text := (results_of chat env ov m.content).map renderSourceBlock,
              thoughts :=
                [{ title := "Search query for database",
                   description := Desc.text (query_text_of ov m.content),
                   props := [("top", PropVal.int (top_of ov)),
                             ("vector_search", PropVal.bool (vector_search_of ov)),
                             ("text_search", PropVal.bool (text_search_of ov))] },
                 { title := "Search results",
                   description := Desc.records
                     ((results_of chat env ov m.content).map RetrievedItem.record),
                   props := [] },
                 { title := "Prompt to generate answer",
                   description := Desc.messages
                     ((built_of chat env ov m.content past).map PromptMsg.toPyStr),
                   props := model_props_of chat }] } : Context) } :: rest } := by
  unfold SimpleRAGChat.run
  rw [List.getLast?_concat, List.dropLast_concat]
  simp [hch, context_of, sources_content_of, thoughts_of]

/-- C8 witness: the context attached on the concrete default-mode run. -/
theorem C8_response_context_witness :
    (SimpleRAGChat.run testChat testEnv ([] ++ [testMsg]) ovDefaults).1
      = Except.ok { completion_of testChat testEnv ovDefaults testMsg.content [] with
          choices := [{ payload := "choice0", context := some (
            { data_points_text :=
                (results_of testChat testEnv ovDefaults testMsg.content).map renderSourceBlock,
              thoughts :=
                [{ title := "Search query for database",
                   description := Desc.text (query_text_of ovDefaults testMsg.content),
                   props := [("top", PropVal.int (top_of ovDefaults)),
                             ("vector_search", PropVal.bool (vector_search_of ovDefaults)),
                             ("text_search", PropVal.bool (text_search_of ovDefaults))] },
                 { title := "Search results",
                   description := Desc.records
                     ((results_of testChat testEnv ovDefaults testMsg.content).map
                       RetrievedItem.record),
                   props := [] },
                 { title := "Prompt to generate answer",
                   description := Desc.messages
                     ((built_of testChat testEnv ovDefaults testMsg.content []).map
                       PromptMsg.toPyStr),
                   props := model_props_of testChat }] } : Context) }] } :=
  C8_response_context testChat testEnv [] testMsg ovDefaults
    { payload := "choice0", context := none } [] rfl

end RagOnPostgres
